import Mathlib

/-!
Verification development for the rawfile CSI driver (my-csi-driver).

The Go sources are shallowly embedded: pure computations become Lean
functions, filesystem and cluster state become explicit values threaded
through the functions, and external collaborators (the Kubernetes
registry, the remote copy/check pods, losetup/blkid/mkfs/mount) become
oracle parameters carrying the outcome the external call would return.
Machine integers (Go int64/uint64) are modelled as Int/Nat with explicit
wrapping where the Go code can overflow.
-/

/-- Association-list lookup, modelling access `m[k]` into a Go
`map[string]V` (volume contexts, volume attributes, file systems).
Returns `none` when the key is absent, mirroring the Go comma-ok idiom. -/
def lookupKey {α : Type} : List (String × α) → String → Option α
  | [], _ => none
  | (k', v) :: rest, k => if k' = k then some v else lookupKey rest k

/-- Suffix test on strings. This embeds the only use the driver makes of
the glob pattern `<backingDir>/*.img` (part_003, `filepath.Glob`): a
directory entry matches exactly when `.img` is a suffix of its name,
because `*` matches any run of non-separator characters and directory
entries contain no separator. -/
def strEndsWith (s post : String) : Bool := post.data.isSuffixOf s.data

/-- Embeds `pv.Spec.CSI` (the fields the driver reads: `Driver`,
`VolumeHandle`, `VolumeAttributes`). -/
structure CSIVolumeSource where
  driver : String
  volumeHandle : String
  volumeAttributes : List (String × String)
deriving DecidableEq

/-- Embeds a PersistentVolume as the driver sees it: the optional CSI
source and the node-affinity selector terms (each term a list of match
expressions `(key, values)`), as read by `extractNodeHostnameFromPV`.
`csi = none` models `pv.Spec.CSI == nil`; empty `nodeSelectorTerms`
models absent node affinity. -/
structure PersistentVolume where
  csi : Option CSIVolumeSource
  nodeSelectorTerms : List (List (String × List String))
deriving DecidableEq

/-- Embeds the active-set construction of `garbageCollectVolumes`
(part_003 lines 287-300): for every listed PV managed by this driver
(non-nil CSI source, matching driver name, non-empty volume handle),
record the `backingFile` attribute when present and always record
`<backingDir>/<volumeHandle>.img`. The Go `map[string]bool` is modelled
as the list of recorded paths, membership standing for a `true` entry. -/
def activeVolumes (backingDir driverName : String) : List PersistentVolume → List String
  | [] => []
  | pv :: rest =>
    (match pv.csi with
     | none => []
     | some c =>
       if c.driver = driverName ∧ c.volumeHandle ≠ "" then
         (match lookupKey c.volumeAttributes "backingFile" with
          | some bf => [bf]
          | none => []) ++ [backingDir ++ "/" ++ c.volumeHandle ++ ".img"]
       else []) ++ activeVolumes backingDir driverName rest

/-- Embeds the deletion loop of `garbageCollectVolumes` (part_003 lines
303-314): each enumerated file not in the active set is removed;
`removeOk` is the oracle for `os.Remove` (a `false` outcome is the
logged-and-skipped per-file deletion failure). The result is the list of
paths actually removed from the backing directory. -/
def deletedFiles (active : List String) (removeOk : String → Bool) : List String → List String
  | [] => []
  | f :: rest =>
    if active.contains f then deletedFiles active removeOk rest
    else if removeOk f then f :: deletedFiles active removeOk rest
    else deletedFiles active removeOk rest

/-- Embeds one cycle of `garbageCollectVolumes` (part_003 lines 259-317).
Inputs: the configured collaborators and the state the cycle reads —
`clientset` is `none` when no Kubernetes clientset is configured,
`dirEntries` are the file names present in the backing directory,
`pvList` is the outcome of the PersistentVolume List call, and
`removeOk` the per-file `os.Remove` outcome. Returns the backing
directory contents after the cycle. The Go code returns early (deleting
nothing) when the clientset is nil, when no `*.img` file is enumerated,
or when the registry listing fails. -/
def garbageCollectVolumes (backingDir driverName : String) (clientset : Option Unit)
    (dirEntries : List String) (pvList : Except String (List PersistentVolume))
    (removeOk : String → Bool) : List String :=
  match clientset with
  | none => dirEntries
  | some _ =>
    let files := (dirEntries.filter (fun n => strEndsWith n ".img")).map
      (fun n => backingDir ++ "/" ++ n)
    if files.isEmpty then dirEntries
    else
      match pvList with
      | .error _ => dirEntries
      | .ok pvs =>
        let active := activeVolumes backingDir driverName pvs
        let deleted := deletedFiles active removeOk files
        dirEntries.filter (fun n => !(deleted.contains (backingDir ++ "/" ++ n)))

/-- Embeds `csi.Topology` (a segment map). -/
structure Topology where
  segments : List (String × String)
deriving DecidableEq

/-- Embeds the parts of a `csi.CreateVolumeRequest` read by the
topology-aware `CreateVolume` (src/pkg/rawfile/nodeserver.go lines
204-256): `requiredBytes` is `req.CapacityRange.GetRequiredBytes()`
(0 when the range is nil), `snapshotSourceId` is the snapshot id of the
volume content source when one is named, `preferred`/`requisite` come
from `req.AccessibilityRequirements`. -/
structure CreateVolumeReq where
  requiredBytes : Int
  snapshotSourceId : Option String
  preferred : List Topology
  requisite : List Topology
deriving DecidableEq

/-- Embeds the volume part of a `csi.CreateVolumeResponse`. -/
structure CreateVolumeResp where
  volumeId : String
  capacityBytes : Int
  volumeContext : List (String × String)
  accessibleTopology : List Topology
deriving DecidableEq

/-- Embeds the topology-aware `ControllerServer.CreateVolume`
(src/pkg/rawfile/nodeserver.go lines 204-256). `uuid` is the value the
`uuid.New().String()` call returns. Size defaults to 1 GiB when
`requiredBytes` is 0; the context records the deterministic backing-file
path and the decimal size; a snapshot content source adds
`restoreFromSnapshot` and `snapshotFile` entries; topology echoes the
first preferred entry, else the first requisite entry, else nothing. -/
def CreateVolume (backingDir uuid : String) (req : CreateVolumeReq) : CreateVolumeResp :=
  let volID := "vol-" ++ uuid
  let size : Int := if req.requiredBytes = 0 then 1073741824 else req.requiredBytes
  let backingFile := backingDir ++ "/" ++ volID ++ ".img"
  let ctxBase := [("backingFile", backingFile), ("size", toString size)]
  let ctxMap := match req.snapshotSourceId with
    | some snapID =>
      ctxBase ++ [("restoreFromSnapshot", snapID),
                  ("snapshotFile", backingDir ++ "/snap-" ++ snapID ++ ".img")]
    | none => ctxBase
  let topo := if req.preferred ≠ [] then req.preferred.take 1
    else if req.requisite ≠ [] then req.requisite.take 1
    else []
  { volumeId := volID, capacityBytes := size, volumeContext := ctxMap,
    accessibleTopology := topo }

/-- Embeds the inner match-expression loop of
`extractNodeHostnameFromPV` (src/pkg/rawfile/nodeserver.go lines
493-499): the first expression with key `kubernetes.io/hostname` and a
non-empty value list yields its first value. -/
def findHostnameExpr : List (String × List String) → Option String
  | [] => none
  | (k, vs) :: rest =>
    if k = "kubernetes.io/hostname" then
      match vs with
      | v :: _ => some v
      | [] => findHostnameExpr rest
    else findHostnameExpr rest

/-- Embeds the outer term loop of `extractNodeHostnameFromPV`. -/
def extractHostnameFromTerms : List (List (String × List String)) → String
  | [] => ""
  | t :: rest =>
    match findHostnameExpr t with
    | some v => v
    | none => extractHostnameFromTerms rest

/-- Embeds `extractNodeHostnameFromPV` (src/pkg/rawfile/nodeserver.go
lines 489-501): scans the PV node-affinity selector terms for a
`kubernetes.io/hostname` expression; returns `""` when none is found
(also covering nil NodeAffinity/Required, modelled by empty terms). -/
def extractNodeHostnameFromPV (pv : PersistentVolume) : String :=
  extractHostnameFromTerms pv.nodeSelectorTerms

/-- Embeds the snapshot id construction of `CreateSnapshot`
(src/pkg/rawfile/nodeserver.go line 419): `snap-<uuid>`. -/
def createSnapshotId (uuid : String) : String := "snap-" ++ uuid

/-- Embeds the destination path computed by `CreateSnapshot`
(src/pkg/rawfile/nodeserver.go line 420): the snapshot content is copied
to `<backingDir>/<snapID>.img` where `snapID = snap-<uuid>`. The same
path is used by the existence check (line 423, name `snapID+".img"`) and
by `DeleteSnapshot` (line 467). -/
def createSnapshotDstFile (backingDir uuid : String) : String :=
  backingDir ++ "/" ++ createSnapshotId uuid ++ ".img"

/-- Status codes surfaced by the controller RPCs. -/
inductive GrpcCode
  | invalidArgument
  | notFound
  | failedPrecondition
  | internal
deriving DecidableEq

/-- Embeds the snapshot part of a `csi.CreateSnapshotResponse`. -/
structure SnapshotResp where
  snapshotId : String
  sourceVolumeId : String
  readyToUse : Bool
deriving DecidableEq

/-- Embeds `ControllerServer.CreateSnapshot`
(src/pkg/rawfile/nodeserver.go lines 384-453). Oracles: `pvGet` is the
registry Get for the source volume (`.error true` = IsNotFound, `.error
false` = other error), `existsCheck` the outcome of the remote
`fileExistsOnNode` pod for `<snapID>.img` on the resolved node (a
transport error is only warned about and treated as not-existing, as in
the Go code), and `copyResult` the outcome of the remote copy pod. The
returned Bool records whether a copy pod was launched. -/
def CreateSnapshot (name : String) (clientsetConfigured : Bool)
    (sourceVolumeId uuid : String) (pvGet : Except Bool PersistentVolume)
    (existsCheck : Except String Bool) (copyResult : Except String Unit) :
    Except GrpcCode (SnapshotResp × Bool) :=
  if sourceVolumeId = "" then .error .invalidArgument
  else if ¬ clientsetConfigured then .error .failedPrecondition
  else
    match pvGet with
    | .error true => .error .notFound
    | .error false => .error .internal
    | .ok pv =>
      match pv.csi with
      | none => .error .notFound
      | some c =>
        if c.driver ≠ name then .error .notFound
        else
          let nodeName := extractNodeHostnameFromPV pv
          if nodeName = "" then .error .failedPrecondition
          else
            let snapID := createSnapshotId uuid
            let found := match existsCheck with
              | .ok b => b
              | .error _ => false
            if found then
              .ok ({ snapshotId := snapID, sourceVolumeId := sourceVolumeId,
                     readyToUse := true }, false)
            else
              match copyResult with
              | .error _ => .error .internal
              | .ok _ =>
                .ok ({ snapshotId := snapID, sourceVolumeId := sourceVolumeId,
                       readyToUse := true }, true)

/-- Decimal digit value of a character, `none` for a non-digit. -/
def digitVal (c : Char) : Option Nat :=
  if '0' ≤ c ∧ c ≤ '9' then some (c.toNat - '0'.toNat) else none

/-- Accumulates the decimal value of a digit run; `none` on the first
non-digit character. -/
def parseDigits : List Char → Nat → Option Nat
  | [], acc => some acc
  | c :: rest, acc =>
    match digitVal c with
    | some d => parseDigits rest (acc * 10 + d)
    | none => none

/-- Embeds `strconv.ParseInt(s, 10, 64)` as used by `NodePublishVolume`
(part_003 line 58): an optional sign followed by at least one decimal
digit, rejected (`none`) when empty, when a non-digit appears, or when
the value leaves the signed 64-bit range. -/
def parseInt64 (s : String) : Option Int :=
  let signed : Bool × List Char :=
    match s.data with
    | '+' :: rest => (false, rest)
    | '-' :: rest => (true, rest)
    | l => (false, l)
  match signed.2 with
  | [] => none
  | _ =>
    match parseDigits signed.2 0 with
    | none => none
    | some n =>
      if signed.1 then
        if n ≤ 2 ^ 63 then some (-(n : Int)) else none
      else
        if n ≤ 2 ^ 63 - 1 then some (n : Int) else none

/-- Node-local filesystem state: the directories known to exist and a
map from file path to byte contents (bytes as `Nat`s below 256; the
claims only compare contents, so no range invariant is carried). -/
structure NodeFs where
  dirs : List String
  files : List (String × List Nat)
deriving DecidableEq

/-- Filesystem-mutating steps a `NodePublishVolume` call performs, in
order, recorded so that theorems can state that nothing beyond
target-path creation happened. -/
inductive FsAction
  | mkdirAll (path : String)
  | createFile (path : String)
  | truncateFile (path : String) (size : Int)
  | losetupAttach (backingFile : String)
  | mkfs (fsType device : String)
  | mountDev (device target : String)
deriving DecidableEq

/-- Outcome of an embedded `NodePublishVolume` call: the returned error
(if any), the filesystem afterwards, and the actions performed. -/
structure PublishOutcome where
  result : Except String Unit
  fs : NodeFs
  actions : List FsAction

/-- Last path component stripped, approximating `filepath.Dir` for the
paths the driver builds (it differs from Go only in path cleaning, e.g.
on a root path, which no claim exercises): everything before the final
separator, or `.` when there is none. -/
def dirOf (p : String) : String :=
  let rev := p.data.reverse
  if rev.contains '/' then String.mk ((rev.dropWhile (fun c => c ≠ '/')).drop 1).reverse
  else "."

/-- Embeds the JIT-capable `NodeServer.NodePublishVolume` (part_003
lines 40-122). Oracles stand for the external command invocations:
`losetupRes` for `losetup -f --show` (returning the device path),
`blkidRes` for `blkid` combined output, `mkfsRes` for `mkfs.<fs>`, and
`mountRes` for `mount`. `os.MkdirAll` is modelled as always succeeding;
`os.Stat` on the backing file succeeds exactly when the file is in the
map (the only failure mode the claims exercise is not-exists). The Go
code looks up `backingFile` and `size` in the volume context, parses the
size, creates and truncates the backing file only when absent (never
reading `restoreFromSnapshot`/`snapshotFile`), then attaches, formats if
`blkid` reports nothing, and mounts. -/
def NodePublishVolume (fs0 : NodeFs) (targetPath : String)
    (volumeContext : List (String × String)) (reqFsType : String)
    (losetupRes : Except String String) (blkidRes : Except String (List Nat))
    (mkfsRes : Except String Unit) (mountRes : Except String Unit) : PublishOutcome :=
  let fs1 : NodeFs := { fs0 with dirs := fs0.dirs ++ [targetPath] }
  let acts1 := [FsAction.mkdirAll targetPath]
  match lookupKey volumeContext "backingFile" with
  | none => { result := .error "missing backingFile in volume context", fs := fs1, actions := acts1 }
  | some backingFile =>
    match lookupKey volumeContext "size" with
    | none => { result := .error "missing size in volume context", fs := fs1, actions := acts1 }
    | some sizeStr =>
      match parseInt64 sizeStr with
      | none => { result := .error "invalid size in volume context", fs := fs1, actions := acts1 }
      | some size =>
        let afterCreate : Except String (NodeFs × List FsAction) :=
          match lookupKey fs1.files backingFile with
          | some _ => .ok (fs1, acts1)
          | none =>
            let fs2 : NodeFs := { fs1 with dirs := fs1.dirs ++ [dirOf backingFile] }
            let acts2 := acts1 ++ [FsAction.mkdirAll (dirOf backingFile)]
            let fs3 : NodeFs := { fs2 with files := fs2.files ++ [(backingFile, [])] }
            let acts3 := acts2 ++ [FsAction.createFile backingFile]
            if size < 0 then .error "failed to truncate backing file"
            else
              let newFiles := fs3.files.map
                (fun kv => if kv.1 = backingFile then (kv.1, List.replicate size.toNat 0) else kv)
              .ok ({ fs3 with files := newFiles }, acts3 ++ [FsAction.truncateFile backingFile size])
        match afterCreate with
        | .error e => { result := .error e, fs := fs1, actions := acts1 }
        | .ok (fs4, acts4) =>
          match losetupRes with
          | .error e =>
            { result := .error ("failed to set up loop device: " ++ e), fs := fs4,
              actions := acts4 ++ [FsAction.losetupAttach backingFile] }
          | .ok loopDev =>
            let fsType := if reqFsType = "" then "ext4" else reqFsType
            let acts5 := acts4 ++ [FsAction.losetupAttach backingFile]
            let formatted : Except String (List FsAction) :=
              match blkidRes with
              | .ok out => if out.length > 0 then .ok acts5
                           else match mkfsRes with
                                | .ok _ => .ok (acts5 ++ [FsAction.mkfs fsType loopDev])
                                | .error e => .error e
              | .error _ =>
                match mkfsRes with
                | .ok _ => .ok (acts5 ++ [FsAction.mkfs fsType loopDev])
                | .error e => .error e
            match formatted with
            | .error e => { result := .error ("failed to format device: " ++ e), fs := fs4, actions := acts5 }
            | .ok acts6 =>
              match mountRes with
              | .error e => { result := .error ("failed to mount device: " ++ e), fs := fs4, actions := acts6 }
              | .ok _ =>
                { result := .ok (), fs := fs4,
                  actions := acts6 ++ [FsAction.mountDev loopDev targetPath] }

/-- Recursion behind `Contains` (part_005 lines 73-76), transcribing the
naive substring check character list by character list:
`len(s) >= len(substr) && (s == substr || (len(s) > len(substr) &&
(s[0:len(substr)] == substr || Contains(s[1:], substr))))`. -/
def containsAux : List Char → List Char → Bool
  | [], sub => sub.isEmpty
  | c :: rest, sub =>
    decide ((c :: rest).length ≥ sub.length) &&
      ((c :: rest) == sub ||
        (decide ((c :: rest).length > sub.length) &&
          (((c :: rest).take sub.length == sub) || containsAux rest sub)))

/-- Embeds the helper `Contains` (part_005 lines 73-76): substring
membership test used by `FindLoopDevice` on whole mount-table lines. -/
def Contains (s substr : String) : Bool := containsAux s.data substr.data

/-- Recursion behind `SplitFields` (part_005 lines 53-71): accumulates
the current field and the fields seen so far, splitting on spaces and
tabs. -/
def splitFieldsAux : List Char → List Char → List String → List String
  | [], field, fields =>
    if field.isEmpty then fields else fields ++ [String.mk field]
  | c :: rest, field, fields =>
    if c = ' ' ∨ c = '\t' then
      if field.isEmpty then splitFieldsAux rest [] fields
      else splitFieldsAux rest [] (fields ++ [String.mk field])
    else splitFieldsAux rest (field ++ [c]) fields

/-- Embeds the helper `SplitFields` (part_005 lines 53-71). -/
def SplitFields (s : String) : List String := splitFieldsAux s.data [] []

/-- One entry of the OS mount table: the device, the mount point, and
the rest of the line the `mount` command prints for it. -/
structure MountEntry where
  device : String
  mountPoint : String
  opts : String
deriving DecidableEq

/-- Renders a mount-table entry the way the `mount` command prints it
(`DEV on DIR type FS (opts)` — the trailing part is carried verbatim in
`opts`); `FindLoopDevice` scans these lines. -/
def renderMountLine (e : MountEntry) : String :=
  e.device ++ " on " ++ e.mountPoint ++ " " ++ e.opts

/-- Line filter of `FindLoopDevice` (part_005 line 27): a non-empty line
containing both the target path and `/dev/loop` as substrings. -/
def lineMatches (target line : String) : Bool :=
  decide (line.length > 0) && Contains line target && Contains line "/dev/loop"

/-- Recursion behind `FindLoopDevice` over the split output lines: the
first whitespace-delimited field of the first matching line (a matching
line with no fields is skipped, as in the Go loop). -/
def findLoopAux (target : String) : List String → Option String
  | [] => none
  | line :: rest =>
    if lineMatches target line then
      match SplitFields line with
      | f :: _ => some f
      | [] => findLoopAux target rest
    else findLoopAux target rest

/-- Embeds `FindLoopDevice` (part_005 lines 20-35) applied to the
current mount table: scans the rendered `mount` output lines; `none`
models the `""` result (not found, not an error). -/
def FindLoopDevice (mounts : List MountEntry) (target : String) : Option String :=
  findLoopAux target (mounts.map renderMountLine)

/-- OS-level state a `NodeUnpublishVolume` call touches: the existing
paths, the mount table, and the attached loop devices. -/
structure OsState where
  paths : List String
  mounts : List MountEntry
  loopDevs : List String
deriving DecidableEq

/-- Embeds `umount <target>`: succeeds exactly when something is mounted
at the target, removing those mount-table entries. -/
def umountCmd (st : OsState) (target : String) : Except String OsState :=
  if st.mounts.any (fun e => e.mountPoint = target) then
    .ok { st with mounts := st.mounts.filter (fun e => e.mountPoint ≠ target) }
  else .error "umount: not mounted"

/-- Embeds `losetup -d <device>`: succeeds exactly when the device is
attached, detaching it. -/
def losetupDetach (st : OsState) (dev : String) : Except String OsState :=
  if st.loopDevs.contains dev then
    .ok { st with loopDevs := st.loopDevs.filter (fun d => d ≠ dev) }
  else .error "losetup: detach failed"

/-- Embeds `NodeServer.NodeUnpublishVolume` (part_003 lines 157-184): a
missing target path or an empty `FindLoopDevice` result is an immediate
success; otherwise unmount then detach, surfacing either failure. -/
def NodeUnpublishVolume (st : OsState) (target : String) : Except String Unit × OsState :=
  if ¬ st.paths.contains target then (.ok (), st)
  else
    match FindLoopDevice st.mounts target with
    | none => (.ok (), st)
    | some loopDev =>
      match umountCmd st target with
      | .error e => (.error ("failed to unmount: " ++ e), st)
      | .ok st1 =>
        match losetupDetach st1 loopDev with
        | .error e => (.error ("failed to detach loop device: " ++ e), st1)
        | .ok st2 => (.ok (), st2)

/-- Two's-complement interpretation of a `uint64` value as `int64`,
embedding the Go conversion `int64(x)` on `stats.Blocks`/`stats.Bavail`. -/
def int64OfUInt64 (n : Nat) : Int :=
  if n % 2 ^ 64 < 2 ^ 63 then ((n % 2 ^ 64 : Nat) : Int)
  else ((n % 2 ^ 64 : Nat) : Int) - 2 ^ 64

/-- Signed 64-bit wraparound, embedding Go `int64` multiplication
overflow behaviour. -/
def wrap64 (z : Int) : Int := (z + 2 ^ 63) % 2 ^ 64 - 2 ^ 63

/-- Fields of `unix.Statfs_t` the driver reads: `Blocks` and `Bavail`
are `uint64` (as `Nat` below `2^64` in any real result), `Bsize` is
`int64` (as `Int`). -/
structure StatfsResult where
  blocks : Nat
  bavail : Nat
  bsize : Int
deriving DecidableEq

/-- Embeds `NodeServer.NodeGetVolumeStats` (part_003 lines 203-244).
`pathStat` is the `os.Stat` outcome for the volume path (`.error true` =
IsNotExist, `.error false` = other failure) and `statfsRes` the
`unix.Statfs` outcome. On success reports
`(total, available) = (int64(Blocks)*int64(Bsize), int64(Bavail)*int64(Bsize))`
with 64-bit wraparound. -/
def NodeGetVolumeStats (volumePath : String) (pathStat : Except Bool Unit)
    (statfsRes : Except String StatfsResult) : Except String (Int × Int) :=
  if volumePath = "" then .error "volume path is required"
  else
    match pathStat with
    | .error true => .error ("volume path " ++ volumePath ++ " does not exist")
    | .error false => .error ("failed to stat volume path " ++ volumePath)
    | .ok _ =>
      match statfsRes with
      | .error e => .error ("failed to get volume stats: " ++ e)
      | .ok st =>
        let total := wrap64 (int64OfUInt64 st.blocks * st.bsize)
        let available := wrap64 (int64OfUInt64 st.bavail * st.bsize)
        .ok (total, available)

theorem mem_deletedFiles {active : List String} {removeOk : String → Bool}
    {files : List String} {f : String} :
    f ∈ deletedFiles active removeOk files ↔
      f ∈ files ∧ f ∉ active ∧ removeOk f = true := by
  induction files with
  | nil => simp [deletedFiles]
  | cons g rest ih =>
    by_cases hg : active.contains g
    · rw [deletedFiles, if_pos hg, ih]
      have hmem : g ∈ active := by
        simpa using hg
      constructor
      · rintro ⟨h1, h2, h3⟩
        exact ⟨List.mem_cons_of_mem _ h1, h2, h3⟩
      · rintro ⟨h1, h2, h3⟩
        rcases List.mem_cons.mp h1 with rfl | h1'
        · exact absurd hmem h2
        · exact ⟨h1', h2, h3⟩
    · by_cases hr : removeOk g
      · rw [deletedFiles, if_neg hg, if_pos hr]
        have hgactive : g ∉ active := by
          simpa using hg
        constructor
        · intro h
          rcases List.mem_cons.mp h with rfl | h'
          · exact ⟨List.mem_cons_self _ _, hgactive, hr⟩
          · rcases ih.mp h' with ⟨h1, h2, h3⟩
            exact ⟨List.mem_cons_of_mem _ h1, h2, h3⟩
        · rintro ⟨h1, h2, h3⟩
          rcases List.mem_cons.mp h1 with rfl | h1'
          · exact List.mem_cons_self _ _
          · exact List.mem_cons_of_mem _ (ih.mpr ⟨h1', h2, h3⟩)
      · rw [deletedFiles, if_neg hg, if_neg hr, ih]
        constructor
        · rintro ⟨h1, h2, h3⟩
          exact ⟨List.mem_cons_of_mem _ h1, h2, h3⟩
        · rintro ⟨h1, h2, h3⟩
          rcases List.mem_cons.mp h1 with rfl | h1'
          · exact absurd h3 (by simpa using hr)
          · exact ⟨h1', h2, h3⟩

theorem strEndsWith_append (a b : String) : strEndsWith (a ++ b) b = true := by
  unfold strEndsWith
  rw [String.data_append]
  rw [List.isSuffixOf_iff_suffix]
  exact List.suffix_append _ _

theorem gc_ok_result_of_isEmpty (backingDir driverName : String)
    (dirEntries : List String) (pvs : List PersistentVolume) (removeOk : String → Bool)
    (h : ((dirEntries.filter (fun n => strEndsWith n ".img")).map
        (fun n => backingDir ++ "/" ++ n)).isEmpty = true) :
    garbageCollectVolumes backingDir driverName (some ()) dirEntries (.ok pvs) removeOk
      = dirEntries := by
  unfold garbageCollectVolumes
  simp only [h, if_true]

theorem gc_ok_result_of_not_isEmpty (backingDir driverName : String)
    (dirEntries : List String) (pvs : List PersistentVolume) (removeOk : String → Bool)
    (h : ((dirEntries.filter (fun n => strEndsWith n ".img")).map
        (fun n => backingDir ++ "/" ++ n)).isEmpty = false) :
    garbageCollectVolumes backingDir driverName (some ()) dirEntries (.ok pvs) removeOk
      = dirEntries.filter (fun n =>
          !((deletedFiles (activeVolumes backingDir driverName pvs) removeOk
              ((dirEntries.filter (fun n => strEndsWith n ".img")).map
                (fun n => backingDir ++ "/" ++ n))).contains (backingDir ++ "/" ++ n))) := by
  unfold garbageCollectVolumes
  simp only [h, Bool.false_eq_true, if_false]

theorem gc_keeps_entry_with_active_path
    (backingDir driverName : String) (dirEntries : List String)
    (pvs : List PersistentVolume) (removeOk : String → Bool) (n : String)
    (hn : n ∈ dirEntries)
    (hact : (backingDir ++ "/" ++ n) ∈ activeVolumes backingDir driverName pvs) :
    n ∈ garbageCollectVolumes backingDir driverName (some ()) dirEntries (.ok pvs) removeOk := by
  cases hemp : ((dirEntries.filter (fun n => strEndsWith n ".img")).map
      (fun n => backingDir ++ "/" ++ n)).isEmpty
  · rw [gc_ok_result_of_not_isEmpty backingDir driverName dirEntries pvs removeOk hemp]
    refine List.mem_filter.mpr ⟨hn, ?_⟩
    have hnotdel : (backingDir ++ "/" ++ n) ∉
        deletedFiles (activeVolumes backingDir driverName pvs) removeOk
          ((dirEntries.filter (fun n => strEndsWith n ".img")).map
            (fun n => backingDir ++ "/" ++ n)) := by
      intro hdel
      exact (mem_deletedFiles.mp hdel).2.1 hact
    simpa using hnotdel
  · rw [gc_ok_result_of_isEmpty backingDir driverName dirEntries pvs removeOk hemp]
    exact hn

theorem gc_removes_orphan_img_entry
    (backingDir driverName : String) (dirEntries : List String)
    (pvs : List PersistentVolume) (removeOk : String → Bool) (n : String)
    (hn : n ∈ dirEntries) (himg : strEndsWith n ".img" = true)
    (hact : (backingDir ++ "/" ++ n) ∉ activeVolumes backingDir driverName pvs)
    (hrm : removeOk (backingDir ++ "/" ++ n) = true) :
    n ∉ garbageCollectVolumes backingDir driverName (some ()) dirEntries (.ok pvs) removeOk := by
  have hfiles : (backingDir ++ "/" ++ n) ∈
      (dirEntries.filter (fun n => strEndsWith n ".img")).map
        (fun n => backingDir ++ "/" ++ n) :=
    List.mem_map_of_mem _ (List.mem_filter.mpr ⟨hn, himg⟩)
  have hemp : ((dirEntries.filter (fun n => strEndsWith n ".img")).map
      (fun n => backingDir ++ "/" ++ n)).isEmpty = false := by
    cases h : ((dirEntries.filter (fun n => strEndsWith n ".img")).map
        (fun n => backingDir ++ "/" ++ n)).isEmpty
    · rfl
    · rw [List.isEmpty_iff] at h
      rw [h] at hfiles
      exact absurd hfiles (List.not_mem_nil _)
  rw [gc_ok_result_of_not_isEmpty backingDir driverName dirEntries pvs removeOk hemp]
  intro hmem
  have hpred := (List.mem_filter.mp hmem).2
  have hdel : (backingDir ++ "/" ++ n) ∈
      deletedFiles (activeVolumes backingDir driverName pvs) removeOk
        ((dirEntries.filter (fun n => strEndsWith n ".img")).map
          (fun n => backingDir ++ "/" ++ n)) :=
    mem_deletedFiles.mpr ⟨hfiles, hact, hrm⟩
  simp only [Bool.not_eq_true'] at hpred
  have : (backingDir ++ "/" ++ n) ∉
      deletedFiles (activeVolumes backingDir driverName pvs) removeOk
        ((dirEntries.filter (fun n => strEndsWith n ".img")).map
          (fun n => backingDir ++ "/" ++ n)) := by
    simpa using hpred
  exact this hdel

/-- C1: after a garbage-collection cycle run with a configured clientset
whose PersistentVolume listing succeeds, every backing-directory entry
whose full path is in the active set (a recorded `backingFile` attribute
or `<backingDir>/<volumeHandle>.img` of a matching-driver registry
entry) is still present, and every enumerated `*.img` entry whose path
is not in the active set and whose removal succeeds is gone; a removal
failure (`removeOk` false) only skips that one file. -/
theorem gc_cycle_keeps_active_removes_orphans
    (backingDir driverName : String) (dirEntries : List String)
    (pvs : List PersistentVolume) (removeOk : String → Bool) (n : String)
    (hn : n ∈ dirEntries) :
    ((backingDir ++ "/" ++ n) ∈ activeVolumes backingDir driverName pvs →
      n ∈ garbageCollectVolumes backingDir driverName (some ()) dirEntries (.ok pvs) removeOk) ∧
    (strEndsWith n ".img" = true →
      (backingDir ++ "/" ++ n) ∉ activeVolumes backingDir driverName pvs →
      removeOk (backingDir ++ "/" ++ n) = true →
      n ∉ garbageCollectVolumes backingDir driverName (some ()) dirEntries (.ok pvs) removeOk) :=
  ⟨fun hact => gc_keeps_entry_with_active_path backingDir driverName dirEntries pvs
      removeOk n hn hact,
   fun himg hact hrm => gc_removes_orphan_img_entry backingDir driverName dirEntries pvs
      removeOk n hn himg hact hrm⟩

/-- C1 witness: a concrete cycle with one registered volume
(`vol-a.img`), one orphan (`vol-orphan.img`) and one non-matching file
(`keep.txt`), where the registered entry survives and the orphan is
removed. -/
theorem gc_cycle_keeps_active_removes_orphans_witness :
    ("vol-a.img" ∈ garbageCollectVolumes "/data" "drv" (some ())
        ["vol-a.img", "vol-orphan.img", "keep.txt"]
        (.ok [{ csi := some { driver := "drv", volumeHandle := "vol-a",
                              volumeAttributes := [("backingFile", "/data/vol-a.img")] },
                nodeSelectorTerms := [] }]) (fun _ => true)) ∧
    ("vol-orphan.img" ∉ garbageCollectVolumes "/data" "drv" (some ())
        ["vol-a.img", "vol-orphan.img", "keep.txt"]
        (.ok [{ csi := some { driver := "drv", volumeHandle := "vol-a",
                              volumeAttributes := [("backingFile", "/data/vol-a.img")] },
                nodeSelectorTerms := [] }]) (fun _ => true)) := by
  constructor
  · exact (gc_cycle_keeps_active_removes_orphans "/data" "drv"
      ["vol-a.img", "vol-orphan.img", "keep.txt"]
      [{ csi := some { driver := "drv", volumeHandle := "vol-a",
                       volumeAttributes := [("backingFile", "/data/vol-a.img")] },
         nodeSelectorTerms := [] }] (fun _ => true) "vol-a.img"
      (by decide)).1 (by decide)
  · exact (gc_cycle_keeps_active_removes_orphans "/data" "drv"
      ["vol-a.img", "vol-orphan.img", "keep.txt"]
      [{ csi := some { driver := "drv", volumeHandle := "vol-a",
                       volumeAttributes := [("backingFile", "/data/vol-a.img")] },
         nodeSelectorTerms := [] }] (fun _ => true) "vol-orphan.img"
      (by decide)).2 (by decide) (by decide) (by decide)

/-- C3: a garbage-collection cycle with no configured Kubernetes
clientset leaves the backing directory untouched — it performs zero
deletions regardless of the directory contents, the registry outcome, or
the removal oracle. -/
theorem gc_cycle_nil_clientset_is_noop (backingDir driverName : String)
    (dirEntries : List String) (pvList : Except String (List PersistentVolume))
    (removeOk : String → Bool) :
    garbageCollectVolumes backingDir driverName none dirEntries pvList removeOk
      = dirEntries := rfl

/-- C9: snapshot backing files are not protected from garbage
collection. `CreateSnapshot` writes its content to
`<backingDir>/snap-<uuid>.img`; that name matches the GC's `*.img`
enumeration, and since the active set is built solely from
PersistentVolume entries, a cycle with a configured clientset and a
successful listing deletes the snapshot file whenever its path is not
recorded in the active set (and the removal itself succeeds). -/
theorem gc_cycle_deletes_unregistered_snapshots
    (backingDir driverName u : String) (dirEntries : List String)
    (pvs : List PersistentVolume) (removeOk : String → Bool)
    (hn : createSnapshotId u ++ ".img" ∈ dirEntries)
    (hact : createSnapshotDstFile backingDir u ∉ activeVolumes backingDir driverName pvs)
    (hrm : removeOk (createSnapshotDstFile backingDir u) = true) :
    strEndsWith (createSnapshotId u ++ ".img") ".img" = true ∧
    backingDir ++ "/" ++ (createSnapshotId u ++ ".img") = createSnapshotDstFile backingDir u ∧
    createSnapshotId u ++ ".img" ∉
      garbageCollectVolumes backingDir driverName (some ()) dirEntries (.ok pvs) removeOk := by
  have hpath : backingDir ++ "/" ++ (createSnapshotId u ++ ".img")
      = createSnapshotDstFile backingDir u := by
    simp [createSnapshotDstFile, String.append_assoc]
  refine ⟨strEndsWith_append (createSnapshotId u) ".img", hpath, ?_⟩
  refine gc_removes_orphan_img_entry backingDir driverName dirEntries pvs removeOk
    (createSnapshotId u ++ ".img") hn (strEndsWith_append (createSnapshotId u) ".img") ?_ ?_
  · rw [hpath]
    exact hact
  · rw [hpath]
    exact hrm

/-- C9 witness: a concrete cycle where the snapshot file
`snap-aaaa.img` is unregistered and gets deleted while a registered
volume file survives. -/
theorem gc_cycle_deletes_unregistered_snapshots_witness :
    strEndsWith (createSnapshotId "aaaa" ++ ".img") ".img" = true ∧
    "/data" ++ "/" ++ (createSnapshotId "aaaa" ++ ".img") = createSnapshotDstFile "/data" "aaaa" ∧
    createSnapshotId "aaaa" ++ ".img" ∉
      garbageCollectVolumes "/data" "drv" (some ()) ["vol-b.img", "snap-aaaa.img"]
        (.ok [{ csi := some { driver := "drv", volumeHandle := "vol-b",
                              volumeAttributes := [] },
                nodeSelectorTerms := [] }]) (fun _ => true) :=
  gc_cycle_deletes_unregistered_snapshots "/data" "drv" "aaaa"
    ["vol-b.img", "snap-aaaa.img"]
    [{ csi := some { driver := "drv", volumeHandle := "vol-b", volumeAttributes := [] },
       nodeSelectorTerms := [] }] (fun _ => true)
    (by decide) (by decide) (by decide)

/-- C7: `CreateVolume` size contract — with `requiredBytes = s > 0` the
returned volume context's `size` attribute is the decimal string of `s`
and `CapacityBytes` is `s`; with `requiredBytes = 0` both fall back to
1 GiB (1073741824). -/
theorem createVolume_size_contract (backingDir uuid : String) (req : CreateVolumeReq) :
    (0 < req.requiredBytes →
      lookupKey (CreateVolume backingDir uuid req).volumeContext "size"
          = some (toString req.requiredBytes) ∧
        (CreateVolume backingDir uuid req).capacityBytes = req.requiredBytes) ∧
    (req.requiredBytes = 0 →
      lookupKey (CreateVolume backingDir uuid req).volumeContext "size"
          = some "1073741824" ∧
        (CreateVolume backingDir uuid req).capacityBytes = 1073741824) := by
  constructor
  · intro hpos
    have hne : req.requiredBytes ≠ 0 := ne_of_gt hpos
    cases hsrc : req.snapshotSourceId with
    | none => simp [CreateVolume, lookupKey, hsrc, hne]
    | some snapID => simp [CreateVolume, lookupKey, hsrc, hne]
  · intro hzero
    have hts : toString (1073741824 : Int) = "1073741824" := by decide
    cases hsrc : req.snapshotSourceId with
    | none => simp [CreateVolume, lookupKey, hsrc, hzero, hts]
    | some snapID => simp [CreateVolume, lookupKey, hsrc, hzero, hts]

/-- C7 witness: a request for 42 bytes yields `size = "42"` and
capacity 42; a request for 0 bytes yields the 1 GiB default. -/
theorem createVolume_size_contract_witness :
    (lookupKey (CreateVolume "/data" "u" ⟨42, none, [], []⟩).volumeContext "size"
        = some (toString (42 : Int)) ∧
      (CreateVolume "/data" "u" ⟨42, none, [], []⟩).capacityBytes = 42) ∧
    (lookupKey (CreateVolume "/data" "u" ⟨0, none, [], []⟩).volumeContext "size"
        = some "1073741824" ∧
      (CreateVolume "/data" "u" ⟨0, none, [], []⟩).capacityBytes = 1073741824) :=
  ⟨(createVolume_size_contract "/data" "u" ⟨42, none, [], []⟩).1 (by decide),
   (createVolume_size_contract "/data" "u" ⟨0, none, [], []⟩).2 rfl⟩

/-- C4: the snapshot round-trip is broken by a doubled `snap-` prefix.
With uuid `u1`, `CreateSnapshot` copies the snapshot content to
`/data/snap-u1.img` and returns snapshot id `snap-u1`; a `CreateVolume`
naming that id as content source returns `snapshotFile =
/data/snap-snap-u1.img`, which is not the path the copy was written to. -/
theorem createVolume_snapshotFile_mismatches_createSnapshot_dst :
    createSnapshotId "u1" = "snap-u1" ∧
    createSnapshotDstFile "/data" "u1" = "/data/snap-u1.img" ∧
    lookupKey (CreateVolume "/data" "v1"
        ⟨4, some (createSnapshotId "u1"), [], []⟩).volumeContext "snapshotFile"
      = some "/data/snap-snap-u1.img" ∧
    ("/data/snap-snap-u1.img" : String) ≠ "/data/snap-u1.img" := by
  refine ⟨rfl, rfl, ?_, by decide⟩
  rfl

/-- C5: `CreateSnapshot` is an idempotent retry on the existence check —
for a non-empty source volume with a configured clientset, a registry
entry owned by this driver, and a determinable resident node, a
positive existence-check outcome for the snapshot's backing file makes
the call return a ready-to-use snapshot without launching a copy pod
(the returned flag is `false`). -/
theorem createSnapshot_existing_returns_without_copy
    (name srcVol uuid : String) (pv : PersistentVolume) (c : CSIVolumeSource)
    (copyResult : Except String Unit)
    (hsrc : srcVol ≠ "") (hcsi : pv.csi = some c) (hdrv : c.driver = name)
    (hnode : extractNodeHostnameFromPV pv ≠ "") :
    CreateSnapshot name true srcVol uuid (.ok pv) (.ok true) copyResult
      = .ok ({ snapshotId := createSnapshotId uuid, sourceVolumeId := srcVol,
               readyToUse := true }, false) := by
  unfold CreateSnapshot
  rw [if_neg hsrc]
  simp only [not_true, if_false, hcsi]
  rw [if_neg (by simp [hdrv])]
  rw [if_neg hnode]
  simp

/-- C5 witness: a concrete call on volume `vol-1` pinned to node `n1`
whose snapshot file already exists returns success with no copy pod,
even though the copy oracle would have failed. -/
theorem createSnapshot_existing_returns_without_copy_witness :
    CreateSnapshot "drv" true "vol-1" "u9"
        (.ok { csi := some ⟨"drv", "vol-1", []⟩,
               nodeSelectorTerms := [[("kubernetes.io/hostname", ["n1"])]] })
        (.ok true) (.error "copy pod failed")
      = .ok ({ snapshotId := createSnapshotId "u9", sourceVolumeId := "vol-1",
               readyToUse := true }, false) :=
  createSnapshot_existing_returns_without_copy "drv" "vol-1" "u9"
    { csi := some ⟨"drv", "vol-1", []⟩,
      nodeSelectorTerms := [[("kubernetes.io/hostname", ["n1"])]] }
    ⟨"drv", "vol-1", []⟩ (.error "copy pod failed")
    (by decide) rfl rfl (by decide)

/-- C10: `NodePublishVolume` requires the `size` volume-context key
unconditionally — whenever the context lacks `size` or its value does
not parse as a decimal 64-bit integer, the call fails having performed
no filesystem action beyond creating the target path, leaving the file
map untouched, for every starting filesystem (in particular one where
the backing file already exists). -/
theorem nodePublish_requires_size
    (fs0 : NodeFs) (targetPath : String) (volumeContext : List (String × String))
    (reqFsType : String) (losetupRes : Except String String)
    (blkidRes : Except String (List Nat)) (mkfsRes : Except String Unit)
    (mountRes : Except String Unit)
    (h : lookupKey volumeContext "size" = none ∨
      ∃ v, lookupKey volumeContext "size" = some v ∧ parseInt64 v = none) :
    (NodePublishVolume fs0 targetPath volumeContext reqFsType losetupRes blkidRes
        mkfsRes mountRes).result.isOk = false ∧
    (NodePublishVolume fs0 targetPath volumeContext reqFsType losetupRes blkidRes
        mkfsRes mountRes).actions = [FsAction.mkdirAll targetPath] ∧
    (NodePublishVolume fs0 targetPath volumeContext reqFsType losetupRes blkidRes
        mkfsRes mountRes).fs.files = fs0.files := by
  unfold NodePublishVolume
  cases hbf : lookupKey volumeContext "backingFile" with
  | none => simp [Except.isOk, Except.toBool]
  | some bf =>
    rcases h with hs | ⟨v, hv, hp⟩
    · simp [hs, Except.isOk, Except.toBool]
    · simp [hv, hp, Except.isOk, Except.toBool]

/-- C10 witness: with the backing file already present on the node and a
context whose `size` is the unparseable string `4x`, the call fails with
only the target-path creation performed. -/
theorem nodePublish_requires_size_witness :
    (NodePublishVolume ⟨[], [("/data/vol-w.img", [0, 0])]⟩ "/mnt/w"
        [("backingFile", "/data/vol-w.img"), ("size", "4x")] "ext4"
        (.ok "/dev/loop0") (.ok [1]) (.ok ()) (.ok ())).result.isOk = false ∧
    (NodePublishVolume ⟨[], [("/data/vol-w.img", [0, 0])]⟩ "/mnt/w"
        [("backingFile", "/data/vol-w.img"), ("size", "4x")] "ext4"
        (.ok "/dev/loop0") (.ok [1]) (.ok ()) (.ok ())).actions
      = [FsAction.mkdirAll "/mnt/w"] ∧
    (NodePublishVolume ⟨[], [("/data/vol-w.img", [0, 0])]⟩ "/mnt/w"
        [("backingFile", "/data/vol-w.img"), ("size", "4x")] "ext4"
        (.ok "/dev/loop0") (.ok [1]) (.ok ()) (.ok ())).fs.files
      = [("/data/vol-w.img", [0, 0])] :=
  nodePublish_requires_size ⟨[], [("/data/vol-w.img", [0, 0])]⟩ "/mnt/w"
    [("backingFile", "/data/vol-w.img"), ("size", "4x")] "ext4"
    (.ok "/dev/loop0") (.ok [1]) (.ok ()) (.ok ())
    (Or.inr ⟨"4x", rfl, rfl⟩)

/-- C2: `NodePublishVolume` never performs the snapshot restore. For a
volume created from snapshot source `s` with size 4, publishing on a
node where the context's `snapshotFile` holds bytes `[9, 9, 9, 9]`
succeeds but materialises the backing file as four zero bytes — the
just-in-time creation truncates and never copies, so the leading bytes
differ from the snapshot content. -/
theorem nodePublish_ignores_snapshot_restore :
    (CreateVolume "/data" "v1" ⟨4, some "s", [], []⟩).volumeContext
      = [("backingFile", "/data/vol-v1.img"), ("size", "4"),
         ("restoreFromSnapshot", "s"), ("snapshotFile", "/data/snap-s.img")] ∧
    (NodePublishVolume ⟨[], [("/data/snap-s.img", [9, 9, 9, 9])]⟩ "/mnt/t"
        (CreateVolume "/data" "v1" ⟨4, some "s", [], []⟩).volumeContext "ext4"
        (.ok "/dev/loop0") (.ok [1]) (.ok ()) (.ok ())).result = .ok () ∧
    lookupKey (NodePublishVolume ⟨[], [("/data/snap-s.img", [9, 9, 9, 9])]⟩ "/mnt/t"
        (CreateVolume "/data" "v1" ⟨4, some "s", [], []⟩).volumeContext "ext4"
        (.ok "/dev/loop0") (.ok [1]) (.ok ()) (.ok ())).fs.files "/data/vol-v1.img"
      = some [0, 0, 0, 0] ∧
    List.take 4 [0, 0, 0, 0] ≠ List.take 4 [9, 9, 9, 9] :=
  ⟨rfl, rfl, rfl, by decide⟩

theorem int64OfUInt64_of_lt {n : Nat} (h : n < 2 ^ 63) : int64OfUInt64 n = n := by
  unfold int64OfUInt64
  have h64 : n % 2 ^ 64 = n := Nat.mod_eq_of_lt (by omega)
  rw [h64, if_pos h]

theorem wrap64_eq_self {z : Int} (h1 : -(2 ^ 63) ≤ z) (h2 : z < 2 ^ 63) : wrap64 z = z := by
  unfold wrap64
  have hmod : (z + 2 ^ 63) % 2 ^ 64 = z + 2 ^ 63 :=
    Int.emod_eq_of_lt (by omega) (by omega)
  rw [hmod]
  ring

/-- C8: whenever `NodeGetVolumeStats` succeeds and the statfs result is
one a real filesystem can report (block counts within the signed 64-bit
range, available blocks at most total blocks, non-negative block size,
total bytes within the signed 64-bit range), the reported values satisfy
`0 ≤ available ≤ total`. -/
theorem nodeGetVolumeStats_bounds (volumePath : String) (pathStat : Except Bool Unit)
    (st : StatfsResult) (total available : Int)
    (hres : NodeGetVolumeStats volumePath pathStat (.ok st) = .ok (total, available))
    (hb : st.blocks < 2 ^ 63) (hav : st.bavail ≤ st.blocks) (hbs : 0 ≤ st.bsize)
    (hprod : (st.blocks : Int) * st.bsize < 2 ^ 63) :
    0 ≤ available ∧ available ≤ total := by
  unfold NodeGetVolumeStats at hres
  by_cases hvp : volumePath = ""
  · rw [if_pos hvp] at hres
    exact absurd hres (by simp)
  · rw [if_neg hvp] at hres
    cases pathStat with
    | error b => cases b <;> simp at hres
    | ok u =>
      simp only [Except.ok.injEq, Prod.mk.injEq] at hres
      obtain ⟨htot, havail⟩ := hres
      have hble : (st.bavail : Int) * st.bsize ≤ (st.blocks : Int) * st.bsize :=
        mul_le_mul_of_nonneg_right (by exact_mod_cast hav) hbs
      have hbnn : (0 : Int) ≤ (st.bavail : Int) * st.bsize :=
        mul_nonneg (Int.ofNat_nonneg _) hbs
      have htnn : (0 : Int) ≤ (st.blocks : Int) * st.bsize :=
        mul_nonneg (Int.ofNat_nonneg _) hbs
      have hbav63 : st.bavail < 2 ^ 63 := lt_of_le_of_lt hav hb
      have havprod : (st.bavail : Int) * st.bsize < 2 ^ 63 := lt_of_le_of_lt hble hprod
      rw [← htot, ← havail, int64OfUInt64_of_lt hb, int64OfUInt64_of_lt hbav63,
        wrap64_eq_self (by omega) hprod, wrap64_eq_self (by omega) havprod]
      exact ⟨hbnn, hble⟩

/-- C8 witness: a statfs result of 1000 blocks, 400 available, block
size 4096 reports `available = 1638400 ≤ total = 4096000`, both
non-negative. -/
theorem nodeGetVolumeStats_bounds_witness :
    (0 : Int) ≤ 1638400 ∧ (1638400 : Int) ≤ 4096000 :=
  nodeGetVolumeStats_bounds "/mnt/vol" (.ok ()) ⟨1000, 400, 4096⟩ 4096000 1638400
    rfl (by norm_num) (by norm_num) (by norm_num) (by norm_num)

theorem findLoopAux_eq_none (target : String) (lines : List String)
    (h : ∀ line ∈ lines, lineMatches target line = false) :
    findLoopAux target lines = none := by
  induction lines with
  | nil => rfl
  | cons l rest ih =>
    have hl := h l (List.mem_cons_self _ _)
    rw [findLoopAux]
    simp only [hl, Bool.false_eq_true, if_false]
    exact ih (fun x hx => h x (List.mem_cons_of_mem _ hx))

/-- C6 counterexample: the claim "calling `NodeUnpublishVolume` twice in
succession never errors on the second call" is false. With a loop device
mounted at `/mnt/ab` and the unrelated existing path `/mnt/a` as target,
the substring-based mount scan (`Contains`, part_005) matches the
`/mnt/ab` line, so the call attempts `umount /mnt/a`, which fails —
state is unchanged and the second call fails the same way. -/
theorem nodeUnpublish_second_call_errors_counterexample :
    ((NodeUnpublishVolume ⟨["/mnt/a", "/mnt/ab"],
        [⟨"/dev/loop0", "/mnt/ab", "type ext4 (rw)"⟩], ["/dev/loop0"]⟩
        "/mnt/a").1.isOk = false) ∧
    ((NodeUnpublishVolume (NodeUnpublishVolume ⟨["/mnt/a", "/mnt/ab"],
        [⟨"/dev/loop0", "/mnt/ab", "type ext4 (rw)"⟩], ["/dev/loop0"]⟩
        "/mnt/a").2 "/mnt/a").1.isOk = false) := by decide

/-- C6 amended: `NodeUnpublishVolume` succeeds immediately without
unmount or detach when the target path does not exist or when no
loop-device mount line is found for it; and a second call after a first
call succeeds provided no mount-table line remaining after the first
call contains both the target path and `/dev/loop` as substrings (the
counterexample shows the unrestricted claim fails when an unrelated
loop-mount line contains the target as a substring). -/
theorem nodeUnpublish_idempotent_amended (st : OsState) (target : String)
    (h2 : ∀ e ∈ (NodeUnpublishVolume st target).2.mounts,
      lineMatches target (renderMountLine e) = false) :
    ((NodeUnpublishVolume (NodeUnpublishVolume st target).2 target).1.isOk = true) ∧
    (st.paths.contains target = false → NodeUnpublishVolume st target = (.ok (), st)) ∧
    (FindLoopDevice st.mounts target = none → NodeUnpublishVolume st target = (.ok (), st)) := by
  refine ⟨?_, ?_, ?_⟩
  · have hfind : FindLoopDevice (NodeUnpublishVolume st target).2.mounts target = none := by
      unfold FindLoopDevice
      refine findLoopAux_eq_none target _ ?_
      intro line hline
      obtain ⟨e, he, rfl⟩ := List.mem_map.mp hline
      exact h2 e he
    by_cases hp : (NodeUnpublishVolume st target).2.paths.contains target
    · rw [NodeUnpublishVolume, if_neg (by simpa using hp), hfind]
      rfl
    · rw [NodeUnpublishVolume, if_pos (by simpa using hp)]
      rfl
  · intro hp
    rw [NodeUnpublishVolume, if_pos (by simpa using hp)]
  · intro hfind
    by_cases hp : st.paths.contains target
    · rw [NodeUnpublishVolume, if_neg (by simpa using hp), hfind]
    · rw [NodeUnpublishVolume, if_pos (by simpa using hp)]

/-- C6 amended witness: a loop device mounted exactly at the target is
unmounted and detached by the first call, after which the mount table is
empty, so the second call succeeds; the no-op clauses are instantiated
at the same state. -/
theorem nodeUnpublish_idempotent_amended_witness :
    ((NodeUnpublishVolume (NodeUnpublishVolume ⟨["/mnt/a"],
        [⟨"/dev/loop0", "/mnt/a", "type ext4 (rw)"⟩], ["/dev/loop0"]⟩
        "/mnt/a").2 "/mnt/a").1.isOk = true) ∧
    ((⟨["/mnt/a"], [⟨"/dev/loop0", "/mnt/a", "type ext4 (rw)"⟩],
        ["/dev/loop0"]⟩ : OsState).paths.contains "/mnt/a" = false →
      NodeUnpublishVolume ⟨["/mnt/a"], [⟨"/dev/loop0", "/mnt/a", "type ext4 (rw)"⟩],
        ["/dev/loop0"]⟩ "/mnt/a"
        = (.ok (), ⟨["/mnt/a"], [⟨"/dev/loop0", "/mnt/a", "type ext4 (rw)"⟩],
            ["/dev/loop0"]⟩)) ∧
    (FindLoopDevice [⟨"/dev/loop0", "/mnt/a", "type ext4 (rw)"⟩] "/mnt/a" = none →
      NodeUnpublishVolume ⟨["/mnt/a"], [⟨"/dev/loop0", "/mnt/a", "type ext4 (rw)"⟩],
        ["/dev/loop0"]⟩ "/mnt/a"
        = (.ok (), ⟨["/mnt/a"], [⟨"/dev/loop0", "/mnt/a", "type ext4 (rw)"⟩],
            ["/dev/loop0"]⟩)) :=
  nodeUnpublish_idempotent_amended
    ⟨["/mnt/a"], [⟨"/dev/loop0", "/mnt/a", "type ext4 (rw)"⟩], ["/dev/loop0"]⟩
    "/mnt/a" (by decide)
